import Mathlib

/-!
Verification of the indexationWeb repository (TP2 index builder and TP3
search browser) against its natural-language specification.

The Python source is shallowly embedded: dictionaries become association
lists, Python sets become finite sets over strings, real arithmetic
(the BM25 scorer) is modelled over the real numbers, exact fractional
constants over the rationals, and fallible code returns an error value
mirroring the Python exception that would be raised.
-/

deriving instance DecidableEq for Except

/-- Python runtime errors that the embedded code can raise. -/
inductive PyErr where
  | zeroDivision
  | attributeError
  | statisticsError
  | keyError
  deriving DecidableEq, Repr

/-!
Shared text preprocessing. Both TP2/index_builder.py and TP3/browser.py
contain the identical three lines

  text = text.lower()
  text = text.translate(str.maketrans("", "", string.punctuation))
  tokens = text.split()

which are embedded once below. Lowercasing is modelled on ASCII letters
(Char.toLower), matching Python on the ASCII inputs used throughout.
-/

/-- Code points of the Python constant string.punctuation, namely the
ASCII ranges 33-47, 58-64, 91-96 and 123-126. -/
def isPyPunct (c : Char) : Bool :=
  (33 ≤ c.toNat && c.toNat ≤ 47) || (58 ≤ c.toNat && c.toNat ≤ 64) ||
  (91 ≤ c.toNat && c.toNat ≤ 96) || (123 ≤ c.toNat && c.toNat ≤ 126)

/-- ASCII whitespace recognised by the Python str.split() with no
arguments: space, tab, newline, vertical tab, form feed, carriage return. -/
def isPyWs (c : Char) : Bool :=
  c.toNat = 32 || c.toNat = 9 || c.toNat = 10 || c.toNat = 11 ||
  c.toNat = 12 || c.toNat = 13

/-- Helper for pySplit: accumulates the current word (reversed) while
scanning; words are emitted at whitespace boundaries, empty words are
dropped, exactly as Python str.split() does. -/
def pySplitAux : List Char → List Char → List (List Char)
  | [], acc => if acc = [] then [] else [acc.reverse]
  | c :: rest, acc =>
    if isPyWs c then
      if acc = [] then pySplitAux rest []
      else acc.reverse :: pySplitAux rest []
    else pySplitAux rest (c :: acc)

/-- Python str.split(): split on whitespace runs, discarding empty words. -/
def pySplit (l : List Char) : List (List Char) := pySplitAux l []

/-- The common tokenization pipeline of both files: lowercase, delete the
punctuation characters, split on whitespace. -/
def rawTokenize (text : String) : List String :=
  (pySplit ((text.toList.map Char.toLower).filter (fun c => !isPyPunct c))).map
    (fun w => String.mk w)

namespace TP2

/-- The hardcoded stopword set of TP2/index_builder.py. -/
def STOPWORDS : List String :=
  ["a", "an", "the", "and", "or", "but", "if", "while", "with", "of", "at",
   "by", "for", "in", "on", "to", "from", "as", "is", "are", "was", "were",
   "be", "been", "has", "have", "it", "this", "that", "these", "those",
   "so", "not", "your", "my", "their", "our", "can", "will", "just", "i",
   "you", "he", "she", "they", "we", "me", "him", "her", "them", "do",
   "does", "did"]

/-- TP2/index_builder.py tokenize: lowercase, remove punctuation, split on
spaces, and remove the hardcoded stopwords. -/
def tokenize (text : String) : List String :=
  (rawTokenize text).filter (fun t => !(STOPWORDS.contains t))

/-- A review dict from product_reviews; rating is none when the dict
lacks the rating key. Other keys of the dict are irrelevant to the code. -/
structure ReviewRec where
  rating : Option ℚ
  deriving DecidableEq, Repr

/-- An input product document as consumed by TP2/index_builder.py.
Text fields are kept as an association list so that doc.get(field, "")
can be modelled for an arbitrary field name; a document lacking
product_reviews or product_features is modelled by the empty list, which
is exactly what doc.get(key, default) yields. -/
structure PyDoc where
  url : String
  fields : List (String × String)
  product_reviews : List ReviewRec
  product_features : List (String × String)
  deriving DecidableEq, Repr

/-- The Python expression doc.get(field, "") for the text fields. -/
def getField (d : PyDoc) (field : String) : String :=
  (d.fields.lookup field).getD ""

/-- The position list that the TP2 loop

  for idx, t in enumerate(split_tokens): positions_map[t].append(idx)

produces for token t: the 0-based indices at which t occurs, starting
from index i, in increasing order of occurrence. -/
def positionsFrom (t : String) (i : Nat) : List String → List Nat
  | [] => []
  | s :: rest =>
    if s = t then i :: positionsFrom t (i + 1) rest
    else positionsFrom t (i + 1) rest

/-- Processing one document inside TP2 build_inverted_index: for every
token of the tokenized field text, the entry (token, url) is set to the
position list of that token; all other entries are kept. The nested dict
token -> url -> positions is modelled as a map on the pair. -/
def updateIndexDoc (field : String) (idx : String → String → Option (List Nat))
    (d : PyDoc) : String → String → Option (List Nat) :=
  fun t u =>
    if u = d.url ∧ t ∈ TP2.tokenize (getField d field) then
      some (positionsFrom t 0 (TP2.tokenize (getField d field)))
    else idx t u

/-- TP2 build_inverted_index: fold the per-document update over the
document list, starting from the empty index. Writing the index file to
disk is an I/O step outside the embedding. -/
def build_inverted_index (documents : List PyDoc) (field : String) :
    String → String → Option (List Nat) :=
  documents.foldl (updateIndexDoc field) (fun _ _ => none)

/-- The per-URL record of the TP2 reviews index. -/
structure ReviewStats where
  total_reviews : ℕ
  mean_mark : ℚ
  last_rating : ℚ
  deriving DecidableEq, Repr

/-- The body of the TP2 build_reviews_index loop for one document.
An empty (or absent) review list yields the all-zero record. Otherwise
ratings lacking the rating key are dropped; when no rating remains,
statistics.mean([]) raises StatisticsError (and ratings[-1] would raise
IndexError), which the embedding reports as an error value. -/
def reviewEntry (d : PyDoc) : Except PyErr (String × ReviewStats) :=
  if d.product_reviews = [] then Except.ok (d.url, ⟨0, 0, 0⟩)
  else
    match d.product_reviews.filterMap (fun r => r.rating) with
    | [] => Except.error PyErr.statisticsError
    | r :: rs =>
      Except.ok (d.url,
        ⟨(r :: rs).length, (r :: rs).sum / ((r :: rs).length : ℚ),
         (r :: rs).getLastD 0⟩)

/-- TP2 build_reviews_index: process the documents in order, stopping at
the first document whose review aggregation raises. -/
def build_reviews_index : List PyDoc → Except PyErr (List (String × ReviewStats))
  | [] => Except.ok []
  | d :: rest =>
    match reviewEntry d with
    | Except.error e => Except.error e
    | Except.ok entry => (build_reviews_index rest).map (fun l => entry :: l)

/-- defaultdict(list) append: feature_indexes[token].append(url). -/
def appendUrl : List (String × List String) → String → String →
    List (String × List String)
  | [], token, url => [(token, [url])]
  | (t, us) :: rest, token, url =>
    if t = token then (t, us ++ [url]) :: rest
    else (t, us) :: appendUrl rest token url

/-- The inner loops of TP2 build_feature_indexes for one feature name:
for each document possessing the feature, tokenize the stringified value
and append the URL to every token of the value. The resulting index maps
each token to a LIST of URLs (not to a positions dict). -/
def build_feature_index (documents : List PyDoc) (feature : String) :
    List (String × List String) :=
  documents.foldl
    (fun idx d =>
      match d.product_features.lookup feature with
      | none => idx
      | some v => (TP2.tokenize v).foldl (fun m tok => appendUrl m tok d.url) idx)
    []

end TP2

namespace TP3

/-- TP3/browser.py tokenize: lowercase, remove punctuation, split on
whitespace. No stopword removal happens here. -/
def tokenize (text : String) : List String := rawTokenize text

/-- TP3/browser.py normalize: remove stopwords from a token list. The
source reads the module-level nltk English stopword list; that externally
supplied data is passed as the parameter stop. -/
def normalize (stop : List String) (tokens : List String) : List String :=
  tokens.filter (fun t => !(stop.contains t))

/-- A JSON text index as TP3 expects it: token -> (url -> positions),
dictionaries modelled as association lists. -/
def TextIndex : Type := List (String × List (String × List Nat))

/-- Insertion into a Python set modelled as a duplicate-free list: adding
an element already present changes nothing. The CPython enumeration order
of a set is unspecified; this model fixes insertion order, and nothing
downstream depends on the order, only on membership. -/
def sinsert (l : List String) (x : String) : List String :=
  if x ∈ l then l else l ++ [x]

/-- Python set.update: add every element of b to the set a. -/
def setUnion (a b : List String) : List String := b.foldl sinsert a

/-- Python set intersection of the sets a and b. -/
def setInter (a b : List String) : List String := a.filter (fun x => b.contains x)

/-- TP3 expand_with_synonyms: the set of the input tokens together with
every synonym of a token present in the synonym table, returned as the
list enumerating that set. -/
def expand_with_synonyms (syns : List (String × List String))
    (tokens : List String) : List String :=
  tokens.foldl
    (fun acc t =>
      match syns.lookup t with
      | some l => l.foldl sinsert acc
      | none => acc)
    (tokens.foldl sinsert [])

/-- TP3 process_query: tokenize, normalize, expand with synonyms. -/
def process_query (syns : List (String × List String)) (stop : List String)
    (query : String) : List String :=
  expand_with_synonyms syns (normalize stop (tokenize query))

/-- TP3 filter_any_token on a well-shaped text index: starting from the
empty set, for each query token present in the index the URL keys of its
posting dict are added (docs.update(index[t].keys())). -/
def filter_any_token (tokens : List String) (index : TextIndex) : List String :=
  tokens.foldl
    (fun docs t =>
      match index.lookup t with
      | some m => setUnion docs (m.map Prod.fst)
      | none => docs)
    []

/-- The doc_sets list of TP3 filter_all_tokens: one URL-key set per query
token present in the index. -/
def tokenDocSets (tokens : List String) (index : TextIndex) : List (List String) :=
  tokens.filterMap (fun t => (index.lookup t).map (fun m => m.map Prod.fst))

/-- TP3 filter_all_tokens: the intersection of the collected posting-key
sets; the empty set when no query token occurs in the index. -/
def filter_all_tokens (tokens : List String) (index : TextIndex) : List String :=
  match tokenDocSets tokens index with
  | [] => []
  | s :: rest => rest.foldl setInter s

/-- TP3 filter_documents: OR filtering across the four loaded indexes,
unioned with AND filtering on the title index. The source loops over the
literal list of the four module-level indexes, which are passed here as
parameters. -/
def filter_documents (ti di bi oi : TextIndex) (tokens : List String) :
    List String :=
  setUnion
    ([ti, di, bi, oi].foldl (fun cand idx => setUnion cand (filter_any_token tokens idx)) [])
    (filter_all_tokens tokens ti)

/-- The value stored under a token of a loaded JSON index, as Python sees
it dynamically: either a dict from url to positions (text-index shape) or
a plain array of urls (the shape TP2 build_feature_indexes writes). -/
inductive PostVal where
  | dict (m : List (String × List Nat))
  | arr (urls : List String)
  deriving DecidableEq, Repr

/-- A loaded JSON index of unknown value shape. -/
def DynIndex : Type := List (String × PostVal)

/-- TP3 filter_any_token run on a dynamically shaped index, tracking the
Python evaluation of docs.update(index[t].keys()): on a dict value the
keys are added; on an array value the attribute access .keys() raises
AttributeError. -/
def filter_any_token_dyn : List String → DynIndex → List String →
    Except PyErr (List String)
  | [], _, docs => Except.ok docs
  | t :: rest, index, docs =>
    match index.lookup t with
    | none => filter_any_token_dyn rest index docs
    | some (PostVal.dict m) =>
      filter_any_token_dyn rest index (setUnion docs (m.map Prod.fst))
    | some (PostVal.arr _) => Except.error PyErr.attributeError

/-- Entry point of the dynamic model, starting from the empty set as the
source does. -/
def filter_any_dyn (tokens : List String) (index : DynIndex) :
    Except PyErr (List String) :=
  filter_any_token_dyn tokens index []

/-- TP3 bm25_score for one term-document pair. The default parameters
k1 = 1.5 and b = 0.75 are never overridden at the call site and are
inlined. Python float arithmetic is modelled over the real numbers. -/
noncomputable def bm25_score (tf df doc_len avgdl N : ℝ) : ℝ :=
  Real.log (1 + (N - df + 0.5) / (df + 0.5)) *
    ((tf * (1.5 + 1)) / (tf + 1.5 * (1 - 0.75 + 0.75 * doc_len / avgdl)))

/-- defaultdict(float) accumulation: scores[url] += v. -/
noncomputable def addScore : List (String × ℝ) → String → ℝ → List (String × ℝ)
  | [], url, v => [(url, v)]
  | (u, s) :: rest, url, v =>
    if u = url then (u, s + v) :: rest else (u, s) :: addScore rest url v

/-- Inner loop of TP3 bm25 over the postings of one token. When
avgdl = 0 the Python expression b * doc_len / avgdl inside bm25_score
raises ZeroDivisionError the moment a posting is scored; the check is
hoisted to this call site because the Lean real division is total. -/
noncomputable def bm25Inner (avgdl : ℚ) (N df : ℕ)
    (doc_lengths : List (String × ℚ)) :
    List (String × List Nat) → List (String × ℝ) → Except PyErr (List (String × ℝ))
  | [], scores => Except.ok scores
  | (url, positions) :: rest, scores =>
    if avgdl = 0 then Except.error PyErr.zeroDivision
    else
      bm25Inner avgdl N df doc_lengths rest
        (addScore scores url
          (bm25_score (positions.length : ℝ) (df : ℝ)
            (((doc_lengths.lookup url).getD 1 : ℚ) : ℝ) (avgdl : ℚ) (N : ℝ)))

/-- Outer loop of TP3 bm25 over the query tokens; tokens absent from the
index contribute nothing. -/
noncomputable def bm25Outer (index : TextIndex) (avgdl : ℚ) (N : ℕ)
    (doc_lengths : List (String × ℚ)) :
    List String → List (String × ℝ) → Except PyErr (List (String × ℝ))
  | [], scores => Except.ok scores
  | t :: rest, scores =>
    match index.lookup t with
    | none => bm25Outer index avgdl N doc_lengths rest scores
    | some postings =>
      match bm25Inner avgdl N postings.length doc_lengths postings scores with
      | Except.error e => Except.error e
      | Except.ok scores2 => bm25Outer index avgdl N doc_lengths rest scores2

/-- TP3 bm25: the statement avgdl = sum(doc_lengths.values()) / N raises
ZeroDivisionError when the document-length table is empty (N = 0);
otherwise every query token contributes its per-posting BM25 terms. -/
noncomputable def bm25 (tokens : List String) (index : TextIndex)
    (doc_lengths : List (String × ℚ)) : Except PyErr (List (String × ℝ)) :=
  if doc_lengths.length = 0 then Except.error PyErr.zeroDivision
  else
    bm25Outer index ((doc_lengths.map Prod.snd).sum / (doc_lengths.length : ℚ))
      doc_lengths.length doc_lengths tokens []

/-- TP3 exact_match_score: 1 when every query token occurs among the
title tokens (Python set inclusion), 0 otherwise. -/
def exact_match_score (tokens title_tokens : List String) : ℕ :=
  if ∀ t ∈ tokens, t ∈ title_tokens then 1 else 0

/-- The per-URL record built by TP3 build_documents_metadata. -/
structure DocStats where
  title : String
  description : String
  title_tokens : List String
  review_count : ℕ
  doc_length : ℕ
  deriving DecidableEq, Repr

/-- A product document as read by TP3/browser.py: url and title are
accessed with mandatory lookups, description and reviews with defaults. -/
structure ProductDoc where
  url : String
  title : String
  description : String
  reviews : List TP2.ReviewRec
  deriving DecidableEq, Repr

/-- TP3 build_documents_metadata over a product list, parameterized by
the external stopword list used by normalize. -/
def build_documents_metadata (stop : List String) (products : List ProductDoc) :
    List (String × DocStats) :=
  products.map
    (fun p =>
      (p.url,
       ⟨p.title, p.description, normalize stop (tokenize p.title),
        p.reviews.length, (normalize stop (tokenize p.description)).length⟩))

/-- The term frequency of the specification: the posting-list length for
a (token, document) pair, zero when either the token is absent from the
index or the document is absent from its posting dict. -/
def tf_in (index : TextIndex) (t doc : String) : ℕ :=
  match index.lookup t with
  | some m =>
    match m.lookup doc with
    | some ps => ps.length
    | none => 0
  | none => 0

/-- One conditional accumulation of TP3 compute_score: when the token is
in the index and the document is in its posting dict, add the weighted
posting-list length, otherwise leave the score unchanged. -/
def fieldBoost (index : TextIndex) (t doc : String) (w : ℚ) (score : ℚ) : ℚ :=
  match index.lookup t with
  | some m =>
    match m.lookup doc with
    | some ps => score + w * (ps.length : ℚ)
    | none => score
  | none => score

/-- TP3 compute_score: the loop adds, per query token, weight 3 on the
title posting length, 1 on the description posting length and 0.5 on the
posting length in the index loaded from reviews_index.json; afterwards
5 times the exact-title-match indicator and 0.1 times the review count
are added. The three module-level indexes are passed as parameters. -/
def compute_score (ti di ri : TextIndex) (doc : String) (tokens : List String)
    (stats : DocStats) : ℚ :=
  (tokens.foldl
      (fun score t =>
        fieldBoost ri t doc (1 / 2) (fieldBoost di t doc 1 (fieldBoost ti t doc 3 score)))
      0)
    + 5 * (exact_match_score tokens stats.title_tokens : ℚ)
    + (1 / 10) * (stats.review_count : ℚ)

/-- The result-building loop of TP3 search: stats = documents_metadata[doc]
is a mandatory dict lookup that raises KeyError when a candidate URL has
no metadata entry; otherwise the scored entry is emitted. -/
def searchLoop (ti di ri : TextIndex) (tokens : List String)
    (metadata : List (String × DocStats)) :
    List String → Except PyErr (List (String × ℚ))
  | [] => Except.ok []
  | doc :: rest =>
    match metadata.lookup doc with
    | none => Except.error PyErr.keyError
    | some stats =>
      (searchLoop ti di ri tokens metadata rest).map
        (fun l => (doc, compute_score ti di ri doc tokens stats) :: l)

/-- TP3 search: process the query, filter the candidates and score each
one. The final descending sort by score, the rounding of scores to three
decimals and the JSON serialization are presentation steps on the
returned association list and are outside the embedding. -/
def search (ti di bi oi ri : TextIndex) (syns : List (String × List String))
    (stop : List String) (metadata : List (String × DocStats)) (query : String) :
    Except PyErr (List (String × ℚ)) :=
  searchLoop ti di ri (process_query syns stop query) metadata
    (filter_documents ti di bi oi (process_query syns stop query))

end TP3

/-! Helper lemmas about the set model. -/

theorem mem_sinsert (l : List String) (y x : String) :
    x ∈ TP3.sinsert l y ↔ x ∈ l ∨ x = y := by
  by_cases h : y ∈ l
  · simp only [TP3.sinsert, if_pos h]
    constructor
    · exact Or.inl
    · rintro (hx | rfl)
      · exact hx
      · exact h
  · simp [TP3.sinsert, if_neg h]

theorem mem_setUnion (a b : List String) (x : String) :
    x ∈ TP3.setUnion a b ↔ x ∈ a ∨ x ∈ b := by
  induction b generalizing a with
  | nil => simp [TP3.setUnion]
  | cons y ys ih =>
    show x ∈ TP3.setUnion (TP3.sinsert a y) ys ↔ _
    rw [ih, mem_sinsert]
    simp only [List.mem_cons]
    tauto

theorem mem_setInter (a b : List String) (x : String) :
    x ∈ TP3.setInter a b ↔ x ∈ a ∧ x ∈ b := by
  simp [TP3.setInter, List.mem_filter]

/-! Claim theorems. -/

/-- Claim C1: the claim that filter_any can be applied to the brand and
origin feature indexes without raising fails on the code: TP2 writes a
feature index mapping each token to a LIST of URLs, and on that shape
the expression index[t].keys() inside filter_any_token raises
AttributeError as soon as a query token is present. On a dict-shaped
index the same code does return the posting URLs. -/
theorem c1_filter_any_feature_index_raises :
    TP2.build_feature_index [⟨"/1", [], [], [("brand", "Zara")]⟩] "brand" =
      [("zara", ["/1"])]
    ∧ TP3.filter_any_dyn ["zara"] [("zara", TP3.PostVal.arr ["/1"])] =
      Except.error PyErr.attributeError
    ∧ TP3.filter_any_dyn ["zara"] [("zara", TP3.PostVal.dict [("/1", [0])])] =
      Except.ok ["/1"] := by
  refine ⟨by decide, by decide, by decide⟩

/-- Claim C2: the claim that bm25 is defined and returns a zero score
mapping when the document-length table is empty fails on the code: with
N = 0 the statement avgdl = sum(doc_lengths.values()) / N raises
ZeroDivisionError for every token list and every index. With avgdl = 0
and a matching posting the term scoring also raises; only when no token
matches does the call return the empty score dict. -/
theorem c2_bm25_division_by_zero :
    (∀ (tokens : List String) (index : TP3.TextIndex),
      TP3.bm25 tokens index [] = Except.error PyErr.zeroDivision)
    ∧ TP3.bm25 ["a"] [("a", [("u", [0])])] [("u", 0)] =
      Except.error PyErr.zeroDivision
    ∧ TP3.bm25 ["a"] [] [("u", 2)] = Except.ok [] := by
  refine ⟨fun tokens index => by simp [TP3.bm25], ?_, ?_⟩
  · simp [TP3.bm25, TP3.bm25Outer, TP3.bm25Inner, List.lookup]
  · simp [TP3.bm25, TP3.bm25Outer, List.lookup]

/-- Claim C5, counterexample: the tokenizer of TP2/index_builder.py does
remove stopwords, so on the specified input it yields two tokens, not
the three the claim requires of a tokenizer shared with the browser. -/
theorem c5_counterexample :
    TP2.tokenize "A, B. C!" = ["b", "c"]
    ∧ TP2.tokenize "A, B. C!" ≠ ["a", "b", "c"] := by
  refine ⟨by decide, by decide⟩

/-- Claim C5, amended: the browser tokenizer lowercases, strips
punctuation and splits on whitespace with no stopword removal (stopwords
are removed by normalize), the empty string yields the empty sequence,
and tokenize("A, B. C!") = ["a", "b", "c"] there; the index-builder
tokenizer is the same pipeline followed by removal of its hardcoded
stopwords, so the two tokenizers differ and TP2 yields ["b", "c"]. -/
theorem c5_tokenize_amended :
    TP3.tokenize "A, B. C!" = ["a", "b", "c"]
    ∧ TP3.tokenize "" = []
    ∧ TP3.tokenize "the cat" = ["the", "cat"]
    ∧ TP3.normalize TP2.STOPWORDS ["the", "cat"] = ["cat"]
    ∧ (∀ text : String,
        TP2.tokenize text =
          (TP3.tokenize text).filter (fun t => !(TP2.STOPWORDS.contains t)))
    ∧ TP2.tokenize "A, B. C!" = ["b", "c"] := by
  refine ⟨by decide, rfl, by decide, by decide, fun text => rfl, by decide⟩

/-- Claim C4: a document with an empty (or absent) review list does get
the all-zero record, and review entries lacking a rating key are
excluded from the count, mean and last rating when at least one rating
remains; but a document whose non-empty review list has NO rated entry
makes statistics.mean([]) raise StatisticsError, contradicting the
claim that such entries never cause an error. -/
theorem c4_reviews_index_behaviour :
    TP2.build_reviews_index [⟨"/1", [], [], []⟩] = Except.ok [("/1", ⟨0, 0, 0⟩)]
    ∧ TP2.build_reviews_index [⟨"/3", [], [⟨some 4⟩, ⟨none⟩, ⟨some 2⟩], []⟩] =
      Except.ok [("/3", ⟨2, 3, 2⟩)]
    ∧ TP2.build_reviews_index [⟨"/2", [], [⟨none⟩], []⟩] =
      Except.error PyErr.statisticsError := by
  refine ⟨by decide, ?_, by decide⟩
  simp [TP2.build_reviews_index, TP2.reviewEntry, Except.map]
  norm_num

/-- Claim C9: filter_all_tokens returns the empty set both for the empty
token list and for a token list none of whose tokens occurs in the
index, because the intersection of an empty collection of posting-key
sets is defined as the empty set. -/
theorem c9_filter_all_nothing_empty (tokens : List String) (index : TP3.TextIndex)
    (h : tokens = [] ∨ ∀ t ∈ tokens, index.lookup t = none) :
    TP3.filter_all_tokens tokens index = [] := by
  have hsets : TP3.tokenDocSets tokens index = [] := by
    cases h with
    | inl h => subst h; rfl
    | inr h =>
      rw [TP3.tokenDocSets, List.filterMap_eq_nil_iff]
      intro t ht
      rw [h t ht]
      rfl
  rw [TP3.filter_all_tokens, hsets]

/-- Witness for C9 at a concrete token list absent from a concrete index. -/
theorem c9_filter_all_nothing_empty_witness :
    TP3.filter_all_tokens ["zzz"] [("hat", [("/1", [0])])] = [] :=
  c9_filter_all_nothing_empty ["zzz"] [("hat", [("/1", [0])])] (Or.inr (by decide))

theorem fieldBoost_eq (index : TP3.TextIndex) (t doc : String) (w s : ℚ) :
    TP3.fieldBoost index t doc w s = s + w * (TP3.tf_in index t doc : ℚ) := by
  rw [TP3.fieldBoost, TP3.tf_in]
  cases hl : index.lookup t with
  | none => simp
  | some m => cases hm : m.lookup doc <;> simp [hm]

theorem score_foldl_eq (ti di ri : TP3.TextIndex) (doc : String)
    (tokens : List String) (s : ℚ) :
    tokens.foldl
        (fun score t =>
          TP3.fieldBoost ri t doc (1 / 2)
            (TP3.fieldBoost di t doc 1 (TP3.fieldBoost ti t doc 3 score)))
        s
      = s + 3 * ((tokens.map (fun t => (TP3.tf_in ti t doc : ℚ))).sum)
          + ((tokens.map (fun t => (TP3.tf_in di t doc : ℚ))).sum)
          + (1 / 2) * ((tokens.map (fun t => (TP3.tf_in ri t doc : ℚ))).sum) := by
  induction tokens generalizing s with
  | nil => simp
  | cons t ts ih =>
    rw [List.foldl_cons, ih]
    simp only [fieldBoost_eq, List.map_cons, List.sum_cons]
    ring

/-- Claim C3: compute_score is exactly the linear combination of the
specification: 3 times the summed title term frequency, plus the summed
description term frequency, plus one half of the summed term frequency
in the loaded reviews index, plus 5 times the exact-title-match
indicator, plus one tenth of the review count. -/
theorem c3_compute_score_formula (ti di ri : TP3.TextIndex) (doc : String)
    (tokens : List String) (stats : TP3.DocStats) :
    TP3.compute_score ti di ri doc tokens stats
      = 3 * ((tokens.map (fun t => (TP3.tf_in ti t doc : ℚ))).sum)
        + 1 * ((tokens.map (fun t => (TP3.tf_in di t doc : ℚ))).sum)
        + (1 / 2) * ((tokens.map (fun t => (TP3.tf_in ri t doc : ℚ))).sum)
        + 5 * (TP3.exact_match_score tokens stats.title_tokens : ℚ)
        + (1 / 10) * (stats.review_count : ℚ) := by
  rw [TP3.compute_score, score_foldl_eq]
  ring

theorem mem_filter_any_aux (index : TP3.TextIndex) (u : String) :
    ∀ (tokens : List String) (docs : List String),
      u ∈ tokens.foldl
            (fun docs t =>
              match index.lookup t with
              | some m => TP3.setUnion docs (m.map Prod.fst)
              | none => docs)
            docs
        ↔ u ∈ docs ∨ ∃ t ∈ tokens, u ∈ ((index.lookup t).getD []).map Prod.fst := by
  intro tokens
  induction tokens with
  | nil => simp
  | cons t ts ih =>
    intro docs
    rw [List.foldl_cons, ih]
    cases hl : index.lookup t with
    | none => simp [hl]
    | some m =>
      simp [hl, mem_setUnion]
      tauto

theorem mem_filter_any (tokens : List String) (index : TP3.TextIndex) (u : String) :
    u ∈ TP3.filter_any_token tokens index
      ↔ ∃ t ∈ tokens, u ∈ ((index.lookup t).getD []).map Prod.fst := by
  rw [TP3.filter_any_token, mem_filter_any_aux]
  simp

theorem mem_foldl_setInter (u : String) :
    ∀ (sets : List (List String)) (s : List String),
      u ∈ s → (∀ x ∈ sets, u ∈ x) → u ∈ sets.foldl TP3.setInter s := by
  intro sets
  induction sets with
  | nil => intro s hs _; exact hs
  | cons y ys ih =>
    intro s hs hall
    rw [List.foldl_cons]
    exact ih _ ((mem_setInter s y u).mpr ⟨hs, hall y (List.mem_cons_self y ys)⟩)
      (fun x hx => hall x (List.mem_cons_of_mem y hx))

theorem mem_tokenDocSets (tokens : List String) (index : TP3.TextIndex) (u : String)
    (hall : ∀ t ∈ tokens, u ∈ ((index.lookup t).getD []).map Prod.fst) :
    ∀ s ∈ TP3.tokenDocSets tokens index, u ∈ s := by
  intro s hs
  rw [TP3.tokenDocSets, List.mem_filterMap] at hs
  obtain ⟨t, ht, hf⟩ := hs
  have hu := hall t ht
  cases hl : index.lookup t with
  | none => rw [hl] at hf; cases hf
  | some m =>
    rw [hl] at hf hu
    simp at hf
    rw [← hf]
    simpa using hu

theorem mem_filter_all_of_all (tokens : List String) (index : TP3.TextIndex)
    (u : String) (hne : tokens ≠ [])
    (hall : ∀ t ∈ tokens, u ∈ ((index.lookup t).getD []).map Prod.fst) :
    u ∈ TP3.filter_all_tokens tokens index := by
  cases tokens with
  | nil => exact absurd rfl hne
  | cons t ts =>
    have h0 := hall t (List.mem_cons_self t ts)
    cases hl : index.lookup t with
    | none => rw [hl] at h0; cases h0
    | some m =>
      rw [hl] at h0
      have hsets : TP3.tokenDocSets (t :: ts) index =
          (m.map Prod.fst) :: TP3.tokenDocSets ts index := by
        rw [TP3.tokenDocSets, List.filterMap_cons, hl]
        rfl
      rw [TP3.filter_all_tokens, hsets]
      exact mem_foldl_setInter u (TP3.tokenDocSets ts index) (m.map Prod.fst) h0
        (mem_tokenDocSets ts index u
          (fun t2 ht2 => hall t2 (List.mem_cons_of_mem t ht2)))

theorem mem_filter_documents (ti di bi oi : TP3.TextIndex) (tokens : List String)
    (u : String) :
    u ∈ TP3.filter_documents ti di bi oi tokens
      ↔ u ∈ TP3.filter_any_token tokens ti ∨ u ∈ TP3.filter_any_token tokens di
        ∨ u ∈ TP3.filter_any_token tokens bi ∨ u ∈ TP3.filter_any_token tokens oi
        ∨ u ∈ TP3.filter_all_tokens tokens ti := by
  rw [TP3.filter_documents]
  simp only [List.foldl_cons, List.foldl_nil, mem_setUnion]
  simp
  tauto

/-- Claim C6, counterexample: for the empty token list every document
vacuously contains all query tokens in its title, yet filter_documents
returns the empty candidate set, so the consequence that every such
document is a candidate fails as universally stated. -/
theorem c6_counterexample :
    (∀ t ∈ ([] : List String),
      "/1" ∈ ((([("red", [("/1", [0])])] : TP3.TextIndex).lookup t).getD []).map
        Prod.fst)
    ∧ "/1" ∉ TP3.filter_documents [("red", [("/1", [0])])] [] [] [] [] := by
  refine ⟨fun t ht => absurd ht (by simp), by decide⟩

/-- Claim C6, amended: filter_documents is exactly the union of
filter_any over the title, description, brand and origin indexes with
filter_all on the title index; every document whose title posting lists
contain it for all query tokens is a candidate PROVIDED the token list
is non-empty (for the empty token list the candidate set is empty); and
every document carrying at least one query token in any of the four
indexes is a candidate. -/
theorem c6_filter_documents_amended (ti di bi oi : TP3.TextIndex)
    (tokens : List String) (u : String) :
    ((TP3.filter_documents ti di bi oi tokens).toFinset =
      (TP3.filter_any_token tokens ti).toFinset
        ∪ (TP3.filter_any_token tokens di).toFinset
        ∪ (TP3.filter_any_token tokens bi).toFinset
        ∪ (TP3.filter_any_token tokens oi).toFinset
        ∪ (TP3.filter_all_tokens tokens ti).toFinset)
    ∧ (tokens ≠ [] →
        (∀ t ∈ tokens, u ∈ ((ti.lookup t).getD []).map Prod.fst) →
        u ∈ TP3.filter_documents ti di bi oi tokens)
    ∧ ((∃ t ∈ tokens, ∃ idx ∈ [ti, di, bi, oi],
          u ∈ ((idx.lookup t).getD []).map Prod.fst) →
        u ∈ TP3.filter_documents ti di bi oi tokens) := by
  refine ⟨?_, ?_, ?_⟩
  · ext x
    simp only [List.mem_toFinset, Finset.mem_union, mem_filter_documents]
    tauto
  · intro hne hall
    rw [mem_filter_documents]
    exact Or.inr (Or.inr (Or.inr (Or.inr
      (mem_filter_all_of_all tokens ti u hne hall))))
  · rintro ⟨t, ht, idx, hidx, hu⟩
    rw [mem_filter_documents]
    simp only [List.mem_cons, List.not_mem_nil, or_false] at hidx
    rcases hidx with rfl | rfl | rfl | rfl
    · exact Or.inl ((mem_filter_any tokens idx u).mpr ⟨t, ht, hu⟩)
    · exact Or.inr (Or.inl ((mem_filter_any tokens idx u).mpr ⟨t, ht, hu⟩))
    · exact Or.inr (Or.inr (Or.inl ((mem_filter_any tokens idx u).mpr ⟨t, ht, hu⟩)))
    · exact Or.inr (Or.inr (Or.inr (Or.inl
        ((mem_filter_any tokens idx u).mpr ⟨t, ht, hu⟩))))

/-- Witness for C6 at a concrete query hitting the title index. -/
theorem c6_filter_documents_amended_witness :
    "/1" ∈ TP3.filter_documents [("red", [("/1", [0])])] [] [] [] ["red"] :=
  (c6_filter_documents_amended [("red", [("/1", [0])])] [] [] [] ["red"] "/1").2.1
    (by decide) (by decide)

theorem positionsFrom_ge (t : String) :
    ∀ (l : List String) (i x : Nat), x ∈ TP2.positionsFrom t i l → i ≤ x := by
  intro l
  induction l with
  | nil => intro i x h; cases h
  | cons s rest ih =>
    intro i x h
    rw [TP2.positionsFrom] at h
    by_cases hs : s = t
    · rw [if_pos hs] at h
      rcases List.mem_cons.mp h with rfl | h2
      · exact Nat.le_refl x
      · have := ih (i + 1) x h2
        omega
    · rw [if_neg hs] at h
      have := ih (i + 1) x h
      omega

theorem positionsFrom_pairwise (t : String) :
    ∀ (l : List String) (i : Nat),
      List.Pairwise (fun a b => a < b) (TP2.positionsFrom t i l) := by
  intro l
  induction l with
  | nil => intro i; rw [TP2.positionsFrom]; exact List.Pairwise.nil
  | cons s rest ih =>
    intro i
    rw [TP2.positionsFrom]
    by_cases hs : s = t
    · rw [if_pos hs]
      refine List.Pairwise.cons ?_ (ih (i + 1))
      intro x hx
      have := positionsFrom_ge t rest (i + 1) x hx
      omega
    · rw [if_neg hs]
      exact ih (i + 1)

theorem positionsFrom_length (t : String) :
    ∀ (l : List String) (i : Nat),
      (TP2.positionsFrom t i l).length = l.count t := by
  intro l
  induction l with
  | nil => intro i; rfl
  | cons s rest ih =>
    intro i
    rw [TP2.positionsFrom]
    by_cases hs : s = t
    · rw [if_pos hs]
      simp [List.count_cons, hs, ih]
    · rw [if_neg hs]
      simp [List.count_cons, hs, ih]

theorem build_inverted_foldl_char (field : String) :
    ∀ (docs : List TP2.PyDoc) (init : String → String → Option (List Nat))
      (t u : String) (ps : List Nat),
      (docs.foldl (TP2.updateIndexDoc field) init) t u = some ps →
      init t u = some ps
        ∨ ∃ d ∈ docs, u = d.url ∧ t ∈ TP2.tokenize (TP2.getField d field)
            ∧ ps = TP2.positionsFrom t 0 (TP2.tokenize (TP2.getField d field)) := by
  intro docs
  induction docs with
  | nil => intro init t u ps h; exact Or.inl h
  | cons d rest ih =>
    intro init t u ps h
    rw [List.foldl_cons] at h
    rcases ih _ t u ps h with hinit | ⟨d2, hd2, hrest⟩
    · rw [TP2.updateIndexDoc] at hinit
      by_cases hc : u = d.url ∧ t ∈ TP2.tokenize (TP2.getField d field)
      · rw [if_pos hc] at hinit
        exact Or.inr ⟨d, List.mem_cons_self d rest, hc.1, hc.2,
          (Option.some.inj hinit).symm⟩
      · rw [if_neg hc] at hinit
        exact Or.inl hinit
    · exact Or.inr ⟨d2, List.mem_cons_of_mem d hd2, hrest⟩

/-- Claim C7: every position list stored by build_inverted_index is a
strictly increasing sequence of 0-based indices into the tokenized field
text of a stored document with that URL, and its length is the number of
occurrences of the token in that tokenized text. -/
theorem c7_position_invariant (documents : List TP2.PyDoc) (field t u : String)
    (ps : List Nat) (h : TP2.build_inverted_index documents field t u = some ps) :
    List.Pairwise (fun a b => a < b) ps
    ∧ ∃ d ∈ documents, d.url = u
        ∧ ps = TP2.positionsFrom t 0 (TP2.tokenize (TP2.getField d field))
        ∧ ps.length = (TP2.tokenize (TP2.getField d field)).count t := by
  rw [TP2.build_inverted_index] at h
  rcases build_inverted_foldl_char field documents _ t u ps h with hinit | hdoc
  · cases hinit
  · obtain ⟨d, hd, hu, _ht, hps⟩ := hdoc
    refine ⟨?_, d, hd, hu.symm, hps, ?_⟩
    · rw [hps]
      exact positionsFrom_pairwise t _ 0
    · rw [hps, positionsFrom_length]

/-- Witness for C7 on a one-document corpus whose title repeats a token. -/
theorem c7_position_invariant_witness :
    List.Pairwise (fun a b => a < b) [0, 1]
    ∧ ∃ d ∈ [(⟨"/1", [("title", "red red hat")], [], []⟩ : TP2.PyDoc)],
        d.url = "/1"
        ∧ [0, 1] = TP2.positionsFrom "red" 0 (TP2.tokenize (TP2.getField d "title"))
        ∧ ([0, 1] : List Nat).length =
            (TP2.tokenize (TP2.getField d "title")).count "red" :=
  c7_position_invariant [⟨"/1", [("title", "red red hat")], [], []⟩] "title"
    "red" "/1" [0, 1] (by decide)

/-- Claim C8, counterexample: with df = 1 and N = 0 (a document
frequency exceeding the corpus size, which the code can produce since df
counts postings while N counts the length table) the idf factor
ln(1 + (N - df + 0.5)/(df + 0.5)) = ln(2/3) is negative, and raising tf
from 1 to 2 strictly DECREASES the term score, refuting the claim as
stated for arbitrary df and N. -/
theorem c8_counterexample :
    TP3.bm25_score 2 1 1 1 0 < TP3.bm25_score 1 1 1 1 0 ∧ (1 : ℝ) < 2 := by
  constructor
  · have hlog : Real.log (2 / 3 : ℝ) < 0 :=
      Real.log_neg (by norm_num) (by norm_num)
    rw [TP3.bm25_score, TP3.bm25_score]
    have h1 : (1 : ℝ) + ((0 : ℝ) - 1 + 0.5) / (1 + 0.5) = 2 / 3 := by norm_num
    rw [h1]
    nlinarith [hlog]
  · norm_num

/-- Claim C8, amended: the BM25 term score is strictly increasing in tf
for fixed df, doc_len, avgdl and N provided tf is non-negative, doc_len
is non-negative, avgdl is positive, and 0 ≤ df < N + 1/2 (so the idf
factor is positive; for integer counts this is df ≤ N, which holds
whenever the document frequency does not exceed the corpus size). -/
theorem c8_bm25_monotone (tf1 tf2 df doc_len avgdl N : ℝ) (h0 : 0 ≤ tf1)
    (h12 : tf1 < tf2) (hdf : 0 ≤ df) (hdN : df < N + 1 / 2) (hdl : 0 ≤ doc_len)
    (ha : 0 < avgdl) :
    TP3.bm25_score tf1 df doc_len avgdl N < TP3.bm25_score tf2 df doc_len avgdl N := by
  rw [TP3.bm25_score, TP3.bm25_score]
  have hdfp : (0 : ℝ) < df + 0.5 := by linarith
  have hargpos : (0 : ℝ) < (N - df + 0.5) / (df + 0.5) :=
    div_pos (by linarith) hdfp
  have hlog : 0 < Real.log (1 + (N - df + 0.5) / (df + 0.5)) :=
    Real.log_pos (by linarith)
  have hquot : (0 : ℝ) ≤ doc_len / avgdl := div_nonneg hdl (le_of_lt ha)
  have hC : (0 : ℝ) < 1.5 * (1 - 0.75 + 0.75 * doc_len / avgdl) := by
    have : (0.75 : ℝ) * doc_len / avgdl = 0.75 * (doc_len / avgdl) := by ring
    rw [this]
    nlinarith
  have hfrac : tf1 * (1.5 + 1) / (tf1 + 1.5 * (1 - 0.75 + 0.75 * doc_len / avgdl))
      < tf2 * (1.5 + 1) / (tf2 + 1.5 * (1 - 0.75 + 0.75 * doc_len / avgdl)) := by
    rw [div_lt_div_iff₀ (by linarith) (by linarith)]
    nlinarith
  exact mul_lt_mul_of_pos_left hfrac hlog

/-- Witness for C8 at concrete parameters with df within the corpus size. -/
theorem c8_bm25_monotone_witness :
    TP3.bm25_score 1 1 1 1 5 < TP3.bm25_score 2 1 1 1 5 :=
  c8_bm25_monotone 1 2 1 1 1 5 (by norm_num) (by norm_num) (by norm_num)
    (by norm_num) (by norm_num) (by norm_num)

theorem searchLoop_error (ti di ri : TP3.TextIndex) (tokens : List String)
    (metadata : List (String × TP3.DocStats)) :
    ∀ l : List String, (∃ d ∈ l, metadata.lookup d = none) →
      TP3.searchLoop ti di ri tokens metadata l = Except.error PyErr.keyError := by
  intro l
  induction l with
  | nil => rintro ⟨d, hd, _⟩; cases hd
  | cons a rest ih =>
    rintro ⟨d, hd, hnone⟩
    rw [TP3.searchLoop]
    cases hl : metadata.lookup a with
    | none => rfl
    | some stats =>
      rcases List.mem_cons.mp hd with rfl | hdr
      · rw [hl] at hnone; cases hnone
      · rw [ih ⟨d, hdr, hnone⟩]
        rfl

theorem searchLoop_ok (ti di ri : TP3.TextIndex) (tokens : List String)
    (metadata : List (String × TP3.DocStats)) :
    ∀ l : List String, (∀ d ∈ l, (metadata.lookup d).isSome) →
      ∃ res, TP3.searchLoop ti di ri tokens metadata l = Except.ok res := by
  intro l
  induction l with
  | nil => intro _; exact ⟨[], rfl⟩
  | cons a rest ih =>
    intro hall
    have ha := hall a (List.mem_cons_self a rest)
    cases hl : metadata.lookup a with
    | none => rw [hl] at ha; cases ha
    | some stats =>
      obtain ⟨res, hres⟩ := ih (fun d hd => hall d (List.mem_cons_of_mem a hd))
      refine ⟨(a, TP3.compute_score ti di ri a tokens stats) :: res, ?_⟩
      rw [TP3.searchLoop, hl, hres]
      rfl

/-- Claim C10: search requires every candidate URL produced by
filter_documents to be a key of documents_metadata: if one candidate is
missing, the dict access documents_metadata[doc] raises KeyError instead
of producing a result list; and when every candidate has metadata the
search returns a result list. -/
theorem c10_search_metadata_precondition (ti di bi oi ri : TP3.TextIndex)
    (syns : List (String × List String)) (stop : List String)
    (metadata : List (String × TP3.DocStats)) (query : String) (url : String) :
    (url ∈ TP3.filter_documents ti di bi oi (TP3.process_query syns stop query) →
      metadata.lookup url = none →
      TP3.search ti di bi oi ri syns stop metadata query =
        Except.error PyErr.keyError)
    ∧ ((∀ u ∈ TP3.filter_documents ti di bi oi (TP3.process_query syns stop query),
          (metadata.lookup u).isSome) →
        ∃ res, TP3.search ti di bi oi ri syns stop metadata query = Except.ok res) := by
  constructor
  · intro hmem hnone
    rw [TP3.search]
    exact searchLoop_error ti di ri _ metadata _ ⟨url, hmem, hnone⟩
  · intro hall
    rw [TP3.search]
    exact searchLoop_ok ti di ri _ metadata _ hall

/-- Witness for C10: a one-token query whose single candidate has no
metadata entry makes search raise KeyError. -/
theorem c10_search_metadata_precondition_witness :
    TP3.search [("hat", [("/1", [0])])] [] [] [] [] [] [] [] "hat" =
      Except.error PyErr.keyError :=
  (c10_search_metadata_precondition [("hat", [("/1", [0])])] [] [] [] [] [] [] []
    "hat" "/1").1 (by decide) (by decide)
